import Mathlib

/-
Verification of the retrain_distillbert.py script
(examples/natural_language/transformers/retrain_distillbert.py).

The script is linear control code over external library calls.  We embed it
shallowly: external calls (glue_processors lookup, tokenizer download,
dataset loading, pretrained model download, predict, fit) are inputs of an
abstract environment, each one fallible (Except).  The script itself is the
function `train`, which threads those inputs in source order, performs the
same branch decisions, and records every operation it issues as an event in
a trace.  Weight tensors are modelled by their shape together with an
entries function on multi-indices, so the bespoke weight-slicing loop can be
embedded exactly.
-/

/-- A tensor: a shape (list of dimension sizes) and an entries function on
multi-indices. -/
structure Tensor (α : Type) where
  shape : List Nat
  entries : List Nat → α

/-- A python slice object as used in the script: either slice(0, 144)
(a bounded range starting at a given offset) or slice(None) (whole axis). -/
inductive Slice where
  | range : Nat → Nat → Slice
  | all : Slice
deriving DecidableEq, Repr

/-- The slice_indices list built by the weight-transplant loop: for every
dimension size s of the weight shape, slice(0, 144) when s is 768 and
slice(None) otherwise (lines 96-102 of the script). -/
def sliceIndicesFor (shape : List Nat) : List Slice :=
  shape.map (fun s => if s = 768 then Slice.range 0 144 else Slice.all)

/-- The length of an axis after applying one slice, following python slice
semantics for nonnegative bounds: slice(a, b) keeps min b dim - a entries,
slice(None) keeps the axis whole. -/
def applySlice (s : Slice) (dim : Nat) : Nat :=
  match s with
  | Slice.range a b => min b dim - a
  | Slice.all => dim

/-- Where index i of the sliced axis reads from in the original axis:
slice(a, b) shifts by the start offset a, slice(None) keeps i. -/
def applySliceIdx (s : Slice) (i : Nat) : Nat :=
  match s with
  | Slice.range a _ => a + i
  | Slice.all => i

/-- large_weight[slice_indices] (line 103): the shape of every axis is cut
by its slice, and entry idx of the result reads the original tensor at the
slice-shifted multi-index. -/
def sliceTensor (w : Tensor α) : Tensor α :=
  { shape := List.zipWith applySlice (sliceIndicesFor w.shape) w.shape
  , entries := fun idx => w.entries (List.zipWith applySliceIdx (sliceIndicesFor w.shape) idx) }

/-- The weight_list built by the loop over large_model.layers[0].weights
(lines 93-105): each weight sliced, in the original order. -/
def weight_list (ws : List (Tensor α)) : List (Tensor α) :=
  ws.map sliceTensor

/-- The flags the script defines (lines 16-27), in order: batch_size,
learning_rate, epsilon, max_length, buffer_size, use_xla, use_amp, epochs,
task, force_train, evaluate.  Floats are modelled as rationals. -/
structure Flags where
  batch_size : Nat
  learning_rate : ℚ
  epsilon : ℚ
  max_length : Nat
  buffer_size : Nat
  use_xla : Bool
  use_amp : Bool
  epochs : Nat
  task : String
  force_train : Bool
  evaluate : Bool

/-- The keras optimizer value built at lines 110-113: an Adam optimizer,
possibly wrapped in a dynamic LossScaleOptimizer. -/
inductive Optimizer where
  | adam (learningRate epsilon : ℚ)
  | lossScale (inner : Optimizer) (mode : String)
deriving DecidableEq, Repr

/-- opt = Adam(learning_rate, epsilon), wrapped in
LossScaleOptimizer(opt, dynamic) exactly when use_amp is set
(lines 110-113). -/
def makeOptimizer (f : Flags) : Optimizer :=
  let opt := Optimizer.adam f.learning_rate f.epsilon
  if f.use_amp then Optimizer.lossScale opt "dynamic" else opt

/-- Whether an optimizer value is a loss-scaling wrapper. -/
def isLossScale : Optimizer → Bool
  | Optimizer.lossScale _ _ => true
  | _ => false

/-- The Adam optimizer underneath an optional loss-scale wrapper. -/
def adamBase : Optimizer → Optimizer
  | Optimizer.lossScale inner _ => inner
  | o => o

/-- The global framework options set by the helper _set_config
(lines 29-35). -/
structure TfConfig where
  envSetUp : Bool
  jit : Bool
  amp : Bool

/-- _set_config (lines 29-35): set_up_environment, then set the JIT option
to the use_xla flag and the auto_mixed_precision option to the use_amp
flag, overwriting whatever the previous configuration held. -/
def set_config (f : Flags) (_c : TfConfig) : TfConfig :=
  { envSetUp := true, jit := f.use_xla, amp := f.use_amp }

/-- _get_tfds_task (lines 37-48): translate sst-2 to sst2 and sts-b to
stsb, return every other task name unchanged. -/
def get_tfds_task (task : String) : String :=
  if task = "sst-2" then "sst2"
  else if task = "sts-b" then "stsb"
  else task

/-- _get_train_length (lines 50-54): 67349 for sst-2, 5749 for sts-b, and
an implicit python None (here Option.none) for every other task. -/
def get_train_length (task : String) : Option Nat :=
  if task = "sst-2" then some 67349
  else if task = "sts-b" then some 5749
  else none

/-- model_path (line 122): the literal ./ then the tfds task name then /. -/
def model_path (task : String) : String :=
  "./" ++ get_tfds_task task ++ "/"

/-- One operation the script issues, recorded with the values it consumes. -/
inductive Event where
  | setUpEnvironment
  | setJit (b : Bool)
  | setAmp (b : Bool)
  | getNumLabels (task : String)
  | loadTokenizer (name : String)
  | loadDataset (name : String)
  | convertExamples (split : String) (maxLength : Nat) (task : String)
  | shuffle (bufferSize : Nat)
  | batch (size : Nat)
  | repeatData (count : Int)
  | loadConfig (numLabels : Nat) (dim : Option Nat)
  | loadPretrainedModel (name : String)
  | predict
  | setWeights (count : Nat)
  | makeOptim (opt : Optimizer)
  | makeLoss (isMSE : Bool)
  | compile
  | printSummary
  | evaluateCall (steps : Option Nat)
  | printSkip
  | printLocals
  | fit (epochs steps validationSteps : Nat)
  | makedirs (path : String)
  | savePretrained (path : String)
deriving DecidableEq, Repr

/-- The abstract environment: each external library call the script makes,
as a fallible input, plus whether the output checkpoint file exists. -/
structure Env where
  numLabels : Except String Nat
  tokenizerOk : Except String Unit
  datasetInfo : Except String (Nat × Nat)
  largeModel : Except String (List (Tensor Int))
  predictOk : Except String Unit
  fitOk : Except String Unit
  ckptExists : Bool

/-- The observable outcome of a successful run: the trace of operations
issued, and the weight list installed into the small model by
set_weights. -/
structure TrainResult where
  trace : List Event
  weightsSet : Option (List (Tensor Int))

/-- The operations issued by every run before the first branch
(lines 60-124): config, glue_processors lookup, tokenizer and dataset
loading, feature conversion of both splits, shuffle/batch/repeat of the
train split and batching of the validation split, the two configs and two
models, the predict warm-up, the weight transplant, optimizer, loss and
compile. -/
def preEvents (f : Flags) (numLabels : Nat) (largeWeights : List (Tensor Int)) : List Event :=
  [Event.setUpEnvironment, Event.setJit f.use_xla, Event.setAmp f.use_amp,
   Event.getNumLabels f.task,
   Event.loadTokenizer "distilbert-base-uncased",
   Event.loadDataset ("glue/" ++ get_tfds_task f.task),
   Event.convertExamples "train" f.max_length f.task,
   Event.convertExamples "validation" f.max_length f.task,
   Event.shuffle f.buffer_size, Event.batch f.batch_size, Event.repeatData (-1),
   Event.batch (f.batch_size * 2),
   Event.loadConfig numLabels none,
   Event.loadPretrainedModel "distilbert-base-uncased",
   Event.loadConfig numLabels (some 144),
   Event.predict,
   Event.setWeights (weight_list largeWeights).length,
   Event.makeOptim (makeOptimizer f),
   Event.makeLoss (numLabels == 1),
   Event.compile]

/-- The branches at the end of train (lines 126-154), after every external
input so far succeeded.  Evaluate branch first: print the summary, evaluate
the train split for int(get_train_length / batch_size) steps (a python
TypeError when get_train_length is None, a ZeroDivisionError when
batch_size is 0), evaluate the validation split, return.  Then the
checkpoint skip branch.  Then fit, makedirs and save_pretrained. -/
def trainTail (f : Flags) (env : Env) (numLabels trainExamples validExamples : Nat)
    (largeWeights : List (Tensor Int)) : Except String TrainResult :=
  if f.evaluate then
    match get_train_length f.task with
    | none => Except.error "TypeError"
    | some len =>
      if f.batch_size = 0 then Except.error "ZeroDivisionError"
      else Except.ok ⟨preEvents f numLabels largeWeights ++ [Event.printSummary,
        Event.evaluateCall (some (len / f.batch_size)), Event.evaluateCall none],
        some (weight_list largeWeights)⟩
  else if env.ckptExists && !f.force_train then
    Except.ok ⟨preEvents f numLabels largeWeights ++ [Event.printSkip, Event.printLocals],
      some (weight_list largeWeights)⟩
  else if f.batch_size = 0 then Except.error "ZeroDivisionError"
  else
    match env.fitOk with
    | Except.error e => Except.error e
    | Except.ok _ =>
      Except.ok ⟨preEvents f numLabels largeWeights ++
        [Event.fit f.epochs (trainExamples / f.batch_size)
          (validExamples / (f.batch_size * 2)),
         Event.makedirs (model_path f.task), Event.savePretrained (model_path f.task)],
        some (weight_list largeWeights)⟩

/-- train (lines 56-154): thread the external inputs in source order, each
failure propagating uncaught, then run the branch logic. -/
def train (f : Flags) (env : Env) : Except String TrainResult :=
  match env.numLabels with
  | Except.error e => Except.error e
  | Except.ok numLabels =>
    match env.tokenizerOk with
    | Except.error e => Except.error e
    | Except.ok _ =>
      match env.datasetInfo with
      | Except.error e => Except.error e
      | Except.ok (trainExamples, validExamples) =>
        match env.largeModel with
        | Except.error e => Except.error e
        | Except.ok largeWeights =>
          match env.predictOk with
          | Except.error e => Except.error e
          | Except.ok _ =>
            trainTail f env numLabels trainExamples validExamples largeWeights

/-- Whether an event is a fit call. -/
def isFitEvent : Event → Bool
  | Event.fit _ _ _ => true
  | _ => false

/-- Whether an event is an evaluate call. -/
def isEvalEvent : Event → Bool
  | Event.evaluateCall _ => true
  | _ => false

/-- Whether an event is a save_pretrained call. -/
def isSaveEvent : Event → Bool
  | Event.savePretrained _ => true
  | _ => false

/-- Whether an event is a makedirs call. -/
def isMakedirsEvent : Event → Bool
  | Event.makedirs _ => true
  | _ => false

/-- The trace of a run, empty when the run failed. -/
def traceOf (x : Except String TrainResult) : List Event :=
  match x with
  | Except.ok r => r.trace
  | Except.error _ => []

/-- The result of a run, a default when the run failed. -/
def resultOf (x : Except String TrainResult) : TrainResult :=
  match x with
  | Except.ok r => r
  | Except.error _ => { trace := [], weightsSet := none }

/-- A concrete flag assignment: the default flag values of the script. -/
def flags0 : Flags :=
  { batch_size := 32, learning_rate := 3 / 100000, epsilon := 1 / 100000000
  , max_length := 128, buffer_size := 128, use_xla := false, use_amp := false
  , epochs := 3, task := "sst-2", force_train := false, evaluate := false }

/-- flags0 with the evaluate flag set. -/
def flagsEval : Flags :=
  { flags0 with evaluate := true }

/-- flags0 with the mnli task and the evaluate flag set. -/
def flagsMnli : Flags :=
  { flags0 with task := "mnli", evaluate := true }

/-- A concrete pretrained first-layer weight list: one matrix with a 768
axis and one bias without. -/
def ws0 : List (Tensor Int) :=
  [Tensor.mk [768, 30] (fun _ => 5), Tensor.mk [30, 30] (fun _ => 3)]

/-- A concrete environment where every external call succeeds and no
checkpoint exists. -/
def env0 : Env :=
  { numLabels := Except.ok 2, tokenizerOk := Except.ok ()
  , datasetInfo := Except.ok (67349, 872), largeModel := Except.ok ws0
  , predictOk := Except.ok (), fitOk := Except.ok (), ckptExists := false }

/-- env0 with an existing checkpoint file. -/
def envCkpt : Env :=
  { env0 with ckptExists := true }

/-- env0 where the glue_processors lookup fails. -/
def envErrLabels : Env :=
  { env0 with numLabels := Except.error "KeyError" }

/-- env0 where fetching the pretrained model fails. -/
def envErrModel : Env :=
  { env0 with largeModel := Except.error "ConnectionError" }

/-- env0 where the fit call fails. -/
def envErrFit : Env :=
  { env0 with fitOk := Except.error "ResourceExhaustedError" }

/-- Elimination for successful runs: every external input before the branch
point succeeded and the tail produced the result. -/
theorem train_ok_elim (f : Flags) (env : Env) (r : TrainResult)
    (h : train f env = Except.ok r) :
    ∃ n te ve ws, env.numLabels = Except.ok n ∧
      env.datasetInfo = Except.ok (te, ve) ∧ env.largeModel = Except.ok ws ∧
      trainTail f env n te ve ws = Except.ok r := by
  unfold train at h
  cases h1 : env.numLabels with
  | error e => rw [h1] at h; exact absurd h (by simp)
  | ok n =>
    rw [h1] at h
    cases h2 : env.tokenizerOk with
    | error e => rw [h2] at h; exact absurd h (by simp)
    | ok u =>
      rw [h2] at h
      cases h3 : env.datasetInfo with
      | error e => rw [h3] at h; exact absurd h (by simp)
      | ok p =>
        rw [h3] at h
        obtain ⟨te, ve⟩ := p
        cases h4 : env.largeModel with
        | error e => rw [h4] at h; exact absurd h (by simp)
        | ok ws =>
          rw [h4] at h
          cases h5 : env.predictOk with
          | error e => rw [h5] at h; exact absurd h (by simp)
          | ok v => rw [h5] at h; exact ⟨n, te, ve, ws, rfl, rfl, rfl, h⟩

/-- The events before the branch point contain no fit, evaluate, makedirs
or save_pretrained call. -/
theorem preEvents_counts (f : Flags) (n : Nat) (ws : List (Tensor Int)) :
    (preEvents f n ws).countP isFitEvent = 0 ∧
    (preEvents f n ws).countP isEvalEvent = 0 ∧
    (preEvents f n ws).countP isSaveEvent = 0 ∧
    (preEvents f n ws).countP isMakedirsEvent = 0 := by
  refine ⟨?_, ?_, ?_, ?_⟩ <;>
    simp [preEvents, isFitEvent, isEvalEvent, isSaveEvent, isMakedirsEvent,
      List.countP_cons, List.countP_nil]

/-- Every successful branch of the tail installs the sliced weight list. -/
theorem trainTail_weightsSet (f : Flags) (env : Env) (n te ve : Nat)
    (ws : List (Tensor Int)) (r : TrainResult)
    (h : trainTail f env n te ve ws = Except.ok r) :
    r.weightsSet = some (weight_list ws) := by
  unfold trainTail at h
  split at h
  · split at h
    · exact absurd h (by simp)
    · split at h
      · exact absurd h (by simp)
      · injection h with h; subst h; rfl
  · split at h
    · injection h with h; subst h; rfl
    · split at h
      · exact absurd h (by simp)
      · split at h
        · exact absurd h (by simp)
        · injection h with h; subst h; rfl

/-- Applying the slice list built for a shape cuts every 768 axis to 144
and keeps every other axis whole. -/
theorem zipWith_applySlice (shape : List Nat) :
    List.zipWith applySlice (sliceIndicesFor shape) shape
      = shape.map (fun s => if s = 768 then 144 else s) := by
  induction shape with
  | nil => rfl
  | cons s t ih =>
    by_cases hs : s = 768
    · subst hs
      simpa [sliceIndicesFor, applySlice] using ih
    · simpa [sliceIndicesFor, applySlice, hs] using ih

/-- Since every slice built for a shape starts at offset 0, the sliced
tensor reads the original tensor at the unchanged multi-index. -/
theorem zipWith_applySliceIdx (shape idx : List Nat) (h : idx.length = shape.length) :
    List.zipWith applySliceIdx (sliceIndicesFor shape) idx = idx := by
  induction shape generalizing idx with
  | nil =>
    cases idx with
    | nil => rfl
    | cons i it => simp at h
  | cons s t ih =>
    cases idx with
    | nil => simp at h
    | cons i it =>
      have h2 : it.length = t.length := by simpa using h
      have ih2 : List.zipWith applySliceIdx
          (List.map (fun s => if s = 768 then Slice.range 0 144 else Slice.all) t) it = it := by
        simpa [sliceIndicesFor] using ih it h2
      by_cases hs : s = 768 <;>
        simp [sliceIndicesFor, applySliceIdx, hs, ih2]

/-- Every successful branch of the tail emits the pre-branch events first. -/
theorem trainTail_trace_pre (f : Flags) (env : Env) (n te ve : Nat)
    (ws : List (Tensor Int)) (r : TrainResult)
    (h : trainTail f env n te ve ws = Except.ok r) :
    ∃ suf, r.trace = preEvents f n ws ++ suf := by
  unfold trainTail at h
  split at h
  · split at h
    · exact absurd h (by simp)
    · split at h
      · exact absurd h (by simp)
      · injection h with h; subst h; exact ⟨_, rfl⟩
  · split at h
    · injection h with h; subst h; exact ⟨_, rfl⟩
    · split at h
      · exact absurd h (by simp)
      · split at h
        · exact absurd h (by simp)
        · injection h with h; subst h; exact ⟨_, rfl⟩

/-- C1: for every weight tensor of the pretrained first layer, the
transplanted weight slices each axis of size 768 down to its first 144
channels (the sliced tensor reads the original at the unchanged index) and
keeps every axis of any other size whole, and the list of sliced tensors,
in the original order, is what set_weights installs into the first layer
of the smaller model. -/
theorem C1_weight_slicing (f : Flags) (env : Env) (r : TrainResult)
    (ws : List (Tensor Int)) (w : Tensor Int) (idx : List Nat)
    (hw : env.largeModel = Except.ok ws) (hr : train f env = Except.ok r)
    (_hmem : w ∈ ws) (hidx : idx.length = w.shape.length) :
    r.weightsSet = some (weight_list ws) ∧
    weight_list ws = ws.map sliceTensor ∧
    (sliceTensor w).shape = w.shape.map (fun s => if s = 768 then 144 else s) ∧
    (sliceTensor w).entries idx = w.entries idx := by
  obtain ⟨n, te, ve, ws2, h1, h3, h4, htail⟩ := train_ok_elim f env r hr
  rw [hw] at h4
  injection h4 with h4
  subst h4
  refine ⟨trainTail_weightsSet f env n te ve ws r htail, rfl, ?_, ?_⟩
  · exact zipWith_applySlice w.shape
  · show w.entries (List.zipWith applySliceIdx (sliceIndicesFor w.shape) idx) = w.entries idx
    rw [zipWith_applySliceIdx w.shape idx hidx]

/-- C1 witness: the slicing theorem at the concrete run flags0, env0, the
first pretrained weight of ws0 and the concrete index [3, 4]. -/
theorem C1_weight_slicing_witness :
    (resultOf (train flags0 env0)).weightsSet = some (weight_list ws0) ∧
    weight_list ws0 = ws0.map sliceTensor ∧
    (sliceTensor (Tensor.mk [768, 30] (fun _ => (5 : Int)))).shape
      = List.map (fun s => if s = 768 then 144 else s) [768, 30] ∧
    (sliceTensor (Tensor.mk [768, 30] (fun _ => (5 : Int)))).entries [3, 4]
      = (Tensor.mk [768, 30] (fun _ => (5 : Int))).entries [3, 4] :=
  C1_weight_slicing flags0 env0 (resultOf (train flags0 env0)) ws0
    (Tensor.mk [768, 30] (fun _ => 5)) [3, 4] rfl rfl (List.Mem.head _) rfl

/-- C8: the XLA and mixed-precision modes forward the flag values exactly:
set_config sets the JIT option to the use_xla flag and the
auto-mixed-precision option to the use_amp flag whatever the previous
configuration was, and the optimizer is a dynamic loss-scaling wrapper
around the Adam optimizer if and only if use_amp is set. -/
theorem C8_config_forwarding (f : Flags) (c : TfConfig) :
    (set_config f c).jit = f.use_xla ∧
    (set_config f c).amp = f.use_amp ∧
    isLossScale (makeOptimizer f) = f.use_amp ∧
    adamBase (makeOptimizer f) = Optimizer.adam f.learning_rate f.epsilon := by
  refine ⟨rfl, rfl, ?_, ?_⟩ <;>
    cases hb : f.use_amp <;> simp [makeOptimizer, isLossScale, adamBase, hb]

/-- C9: the task-name translation maps sst-2 to sst2 and sts-b to stsb and
is the identity on every other task name; the dataset name loaded and the
output directory are both derived from its result. -/
theorem C9_task_translation (t : String) (f : Flags) (env : Env) (r : TrainResult)
    (h1 : t ≠ "sst-2") (h2 : t ≠ "sts-b") (hr : train f env = Except.ok r) :
    get_tfds_task "sst-2" = "sst2" ∧
    get_tfds_task "sts-b" = "stsb" ∧
    get_tfds_task t = t ∧
    Event.loadDataset ("glue/" ++ get_tfds_task f.task) ∈ r.trace ∧
    model_path f.task = "./" ++ get_tfds_task f.task ++ "/" := by
  obtain ⟨n, te, ve, ws, hA, hB, hC, htail⟩ := train_ok_elim f env r hr
  obtain ⟨suf, hsuf⟩ := trainTail_trace_pre f env n te ve ws r htail
  refine ⟨rfl, rfl, by simp [get_tfds_task, h1, h2], ?_, rfl⟩
  rw [hsuf]
  exact List.mem_append_left _ (by simp [preEvents])

/-- C9 witness: the translation theorem at the task qqp and the concrete
run flags0, env0. -/
theorem C9_task_translation_witness :
    get_tfds_task "sst-2" = "sst2" ∧
    get_tfds_task "sts-b" = "stsb" ∧
    get_tfds_task "qqp" = "qqp" ∧
    Event.loadDataset ("glue/" ++ get_tfds_task flags0.task)
      ∈ (resultOf (train flags0 env0)).trace ∧
    model_path flags0.task = "./" ++ get_tfds_task flags0.task ++ "/" :=
  C9_task_translation "qqp" flags0 env0 (resultOf (train flags0 env0))
    (by decide) (by decide) rfl

/-- C4: the per-task training length is defined only for sst-2 (67349) and
sts-b (5749) and is None for every other task, so evaluate mode on any
other task fails with the python TypeError raised by
int(None / batch_size): evaluate mode requires the task to be sst-2 or
sts-b. -/
theorem C4_evaluate_precondition (t : String) (f : Flags) (env : Env)
    (n te ve : Nat) (ws : List (Tensor Int))
    (h1 : t ≠ "sst-2") (h2 : t ≠ "sts-b") (ht : f.task = t) (he : f.evaluate = true)
    (hn : env.numLabels = Except.ok n) (htk : env.tokenizerOk = Except.ok ())
    (hd : env.datasetInfo = Except.ok (te, ve)) (hm : env.largeModel = Except.ok ws)
    (hp : env.predictOk = Except.ok ()) :
    get_train_length "sst-2" = some 67349 ∧
    get_train_length "sts-b" = some 5749 ∧
    get_train_length t = none ∧
    train f env = Except.error "TypeError" := by
  refine ⟨rfl, rfl, by simp [get_train_length, h1, h2], ?_⟩
  have hstep : train f env = trainTail f env n te ve ws := by
    simp [train, hn, htk, hd, hm, hp]
  rw [hstep]
  simp [trainTail, he, ht, get_train_length, h1, h2]

/-- C4 witness: the precondition theorem at the task mnli with the evaluate
flag set, over the all-succeeding environment env0. -/
theorem C4_evaluate_precondition_witness :
    get_train_length "sst-2" = some 67349 ∧
    get_train_length "sts-b" = some 5749 ∧
    get_train_length "mnli" = none ∧
    train flagsMnli env0 = Except.error "TypeError" :=
  C4_evaluate_precondition "mnli" flagsMnli env0 2 67349 872 ws0
    (by decide) (by decide) rfl rfl rfl rfl rfl rfl rfl

/-- C7: the script catches nothing: a failure of the glue_processors task
lookup, a failure fetching the pretrained model, or a failure inside the
fit call each propagate out of train unchanged. -/
theorem C7_error_propagation (f : Flags) (env1 env2 env3 : Env)
    (e1 e2 e3 : String) (n2 n3 te2 ve2 te3 ve3 : Nat) (ws3 : List (Tensor Int))
    (h1 : env1.numLabels = Except.error e1)
    (h2a : env2.numLabels = Except.ok n2) (h2b : env2.tokenizerOk = Except.ok ())
    (h2c : env2.datasetInfo = Except.ok (te2, ve2))
    (h2d : env2.largeModel = Except.error e2)
    (h3a : env3.numLabels = Except.ok n3) (h3b : env3.tokenizerOk = Except.ok ())
    (h3c : env3.datasetInfo = Except.ok (te3, ve3))
    (h3d : env3.largeModel = Except.ok ws3) (h3e : env3.predictOk = Except.ok ())
    (h3f : env3.fitOk = Except.error e3)
    (he : f.evaluate = false) (hskip : (env3.ckptExists && !f.force_train) = false)
    (hbs : f.batch_size ≠ 0) :
    train f env1 = Except.error e1 ∧
    train f env2 = Except.error e2 ∧
    train f env3 = Except.error e3 := by
  refine ⟨by simp [train, h1], by simp [train, h2a, h2b, h2c, h2d], ?_⟩
  simp [train, h3a, h3b, h3c, h3d, h3e, trainTail, he, hskip, hbs, h3f]

/-- C7 witness: the propagation theorem at the three concrete failing
environments over the default flags. -/
theorem C7_error_propagation_witness :
    train flags0 envErrLabels = Except.error "KeyError" ∧
    train flags0 envErrModel = Except.error "ConnectionError" ∧
    train flags0 envErrFit = Except.error "ResourceExhaustedError" :=
  C7_error_propagation flags0 envErrLabels envErrModel envErrFit
    "KeyError" "ConnectionError" "ResourceExhaustedError"
    2 2 67349 872 67349 872 ws0
    rfl rfl rfl rfl rfl rfl rfl rfl rfl rfl rfl rfl rfl (by decide)

/-- C10: when the evaluate flag is set, a completing run returns right
after the two evaluation calls: its trace ends in the two evaluate events
and contains no fit call, no makedirs and no save_pretrained, whatever the
checkpoint existence and force_train flag are. -/
theorem C10_evaluate_frame (f : Flags) (env : Env) (r : TrainResult)
    (he : f.evaluate = true) (hr : train f env = Except.ok r) :
    r.trace.countP isFitEvent = 0 ∧
    r.trace.countP isMakedirsEvent = 0 ∧
    r.trace.countP isSaveEvent = 0 ∧
    r.trace.countP isEvalEvent = 2 ∧
    r.trace.getLast? = some (Event.evaluateCall none) ∧
    r.trace.dropLast.getLast?
      = some (Event.evaluateCall (some ((get_train_length f.task).getD 0 / f.batch_size))) := by
  obtain ⟨n, te, ve, ws, hA, hB, hC, htail⟩ := train_ok_elim f env r hr
  unfold trainTail at htail
  rw [he] at htail
  simp only [if_true] at htail
  cases hg : get_train_length f.task with
  | none => rw [hg] at htail; exact absurd htail (by simp)
  | some len =>
    rw [hg] at htail
    dsimp only at htail
    by_cases hb : f.batch_size = 0
    · rw [if_pos hb] at htail; exact absurd htail (by simp)
    · rw [if_neg hb] at htail
      injection htail with htail
      subst htail
      obtain ⟨c1, c2, c3, c4⟩ := preEvents_counts f n ws
      have hassoc : preEvents f n ws ++ [Event.printSummary,
          Event.evaluateCall (some (len / f.batch_size)), Event.evaluateCall none]
          = ((preEvents f n ws ++ [Event.printSummary,
              Event.evaluateCall (some (len / f.batch_size))]) ++ [Event.evaluateCall none]) := by
        simp
      refine ⟨?_, ?_, ?_, ?_, ?_, ?_⟩
      · simp [List.countP_append, List.countP_cons, c1, isFitEvent]
      · simp [List.countP_append, List.countP_cons, c4, isMakedirsEvent]
      · simp [List.countP_append, List.countP_cons, c3, isSaveEvent]
      · simp [List.countP_append, List.countP_cons, c2, isEvalEvent]
      · rw [hassoc, List.getLast?_concat]
      · rw [hassoc, List.dropLast_concat]
        have hassoc2 : preEvents f n ws ++ [Event.printSummary,
            Event.evaluateCall (some (len / f.batch_size))]
            = ((preEvents f n ws ++ [Event.printSummary])
              ++ [Event.evaluateCall (some (len / f.batch_size))]) := by
          simp
        rw [hassoc2, List.getLast?_concat]
        simp

/-- C10 witness: the frame theorem at the evaluate-mode run over the
environment with an existing checkpoint. -/
theorem C10_evaluate_frame_witness :
    (resultOf (train flagsEval envCkpt)).trace.countP isFitEvent = 0 ∧
    (resultOf (train flagsEval envCkpt)).trace.countP isMakedirsEvent = 0 ∧
    (resultOf (train flagsEval envCkpt)).trace.countP isSaveEvent = 0 ∧
    (resultOf (train flagsEval envCkpt)).trace.countP isEvalEvent = 2 ∧
    (resultOf (train flagsEval envCkpt)).trace.getLast? = some (Event.evaluateCall none) ∧
    (resultOf (train flagsEval envCkpt)).trace.dropLast.getLast?
      = some (Event.evaluateCall
          (some ((get_train_length flagsEval.task).getD 0 / flagsEval.batch_size))) :=
  C10_evaluate_frame flagsEval envCkpt (resultOf (train flagsEval envCkpt)) rfl rfl

/-- C2 counterexample: with an existing checkpoint and force_train unset
but the evaluate flag set, the run completes without ever reaching the
skip-and-print behaviour: nothing about current values is printed, because
the evaluate branch decides first, so the existing-checkpoint condition
alone does not imply the printing, and the checkpoint check is not the
only explicit control decision. -/
theorem C2_counterexample :
    envCkpt.ckptExists = true ∧ flagsEval.force_train = false ∧
    traceOf (train flagsEval envCkpt) ≠ [] ∧
    Event.printLocals ∉ traceOf (train flagsEval envCkpt) ∧
    Event.printSkip ∉ traceOf (train flagsEval envCkpt) := by
  decide

/-- C2 amended: when the evaluate flag is not set, an existing checkpoint
with force_train unset makes train skip training: no fit call, no
makedirs, no model save, and it prints the skip notice and then the values
of the local variables of train as its last action; the checkpoint check
is not the only explicit control decision, being reached only when the
earlier evaluate branch was not taken. -/
theorem C2_amended_skip (f : Flags) (env : Env) (r : TrainResult)
    (he : f.evaluate = false) (hc : env.ckptExists = true) (hf : f.force_train = false)
    (hr : train f env = Except.ok r) :
    r.trace.countP isFitEvent = 0 ∧
    r.trace.countP isMakedirsEvent = 0 ∧
    r.trace.countP isSaveEvent = 0 ∧
    Event.printSkip ∈ r.trace ∧
    r.trace.getLast? = some Event.printLocals := by
  obtain ⟨n, te, ve, ws, hA, hB, hC, htail⟩ := train_ok_elim f env r hr
  unfold trainTail at htail
  rw [if_neg (by simp [he])] at htail
  rw [if_pos (by simp [hc, hf])] at htail
  injection htail with htail
  subst htail
  obtain ⟨c1, c2, c3, c4⟩ := preEvents_counts f n ws
  refine ⟨?_, ?_, ?_, ?_, ?_⟩
  · simp [List.countP_append, List.countP_cons, c1, isFitEvent]
  · simp [List.countP_append, List.countP_cons, c4, isMakedirsEvent]
  · simp [List.countP_append, List.countP_cons, c3, isSaveEvent]
  · exact List.mem_append_right _ (by simp)
  · have hassoc : preEvents f n ws ++ [Event.printSkip, Event.printLocals]
        = ((preEvents f n ws ++ [Event.printSkip]) ++ [Event.printLocals]) := by simp
    rw [hassoc, List.getLast?_concat]

/-- C2 witness: the amended skip theorem at the default flags over the
environment with an existing checkpoint. -/
theorem C2_amended_skip_witness :
    (resultOf (train flags0 envCkpt)).trace.countP isFitEvent = 0 ∧
    (resultOf (train flags0 envCkpt)).trace.countP isMakedirsEvent = 0 ∧
    (resultOf (train flags0 envCkpt)).trace.countP isSaveEvent = 0 ∧
    Event.printSkip ∈ (resultOf (train flags0 envCkpt)).trace ∧
    (resultOf (train flags0 envCkpt)).trace.getLast? = some Event.printLocals :=
  C2_amended_skip flags0 envCkpt (resultOf (train flags0 envCkpt)) rfl rfl rfl rfl

/-- C3 counterexample: at the concrete training run whose command-line
task is sst-2, the model is saved into ./sst2/, named after the translated
task name, and no makedirs or save targets a directory named after the
command-line task name sst-2 itself. -/
theorem C3_counterexample :
    flags0.task = "sst-2" ∧
    Event.savePretrained "./sst2/" ∈ traceOf (train flags0 env0) ∧
    Event.savePretrained "./sst-2/" ∉ traceOf (train flags0 env0) ∧
    Event.makedirs "./sst-2/" ∉ traceOf (train flags0 env0) := by
  decide

/-- C3 amended: after training completes (evaluate unset, no checkpoint
skip), the model is saved, as the final action of the run, into the
directory ./t/ where t is the tfds-translated task name
get_tfds_task(task); that name equals the command-line task name for every
task except sst-2 (saved as sst2) and sts-b (saved as stsb). -/
theorem C3_amended_save_directory (f : Flags) (env : Env) (r : TrainResult)
    (he : f.evaluate = false) (hskip : (env.ckptExists && !f.force_train) = false)
    (hr : train f env = Except.ok r) :
    Event.makedirs ("./" ++ get_tfds_task f.task ++ "/") ∈ r.trace ∧
    r.trace.getLast? = some (Event.savePretrained ("./" ++ get_tfds_task f.task ++ "/")) := by
  obtain ⟨n, te, ve, ws, hA, hB, hC, htail⟩ := train_ok_elim f env r hr
  unfold trainTail at htail
  rw [if_neg (by simp [he])] at htail
  rw [if_neg (by simp [hskip])] at htail
  by_cases hb : f.batch_size = 0
  · rw [if_pos hb] at htail; exact absurd htail (by simp)
  · rw [if_neg hb] at htail
    cases hfit : env.fitOk with
    | error e => rw [hfit] at htail; exact absurd htail (by simp)
    | ok u =>
      rw [hfit] at htail
      dsimp only at htail
      injection htail with htail
      subst htail
      constructor
      · exact List.mem_append_right _ (by simp [model_path])
      · have hassoc : preEvents f n ws ++
            [Event.fit f.epochs (te / f.batch_size) (ve / (f.batch_size * 2)),
             Event.makedirs (model_path f.task), Event.savePretrained (model_path f.task)]
            = ((preEvents f n ws ++
              [Event.fit f.epochs (te / f.batch_size) (ve / (f.batch_size * 2)),
               Event.makedirs (model_path f.task)])
              ++ [Event.savePretrained (model_path f.task)]) := by simp
        rw [hassoc, List.getLast?_concat, model_path]

/-- C3 witness: the amended theorem at the default flags (task sst-2) over
the all-succeeding environment without a checkpoint. -/
theorem C3_amended_save_directory_witness :
    Event.makedirs ("./" ++ get_tfds_task flags0.task ++ "/")
      ∈ (resultOf (train flags0 env0)).trace ∧
    (resultOf (train flags0 env0)).trace.getLast?
      = some (Event.savePretrained ("./" ++ get_tfds_task flags0.task ++ "/")) :=
  C3_amended_save_directory flags0 env0 (resultOf (train flags0 env0)) rfl rfl rfl

/-- C5: each defined flag value, not a hard-coded constant, is what the
corresponding operation consumes: use_xla and use_amp go to the two config
options, the task name to the label lookup, the dataset name and both
feature conversions, max_length to both feature conversions, buffer_size
to the shuffle, batch_size to the batching of both splits, learning_rate
and epsilon to the Adam optimizer, use_amp to the loss-scale wrapping, and
epochs with the flag-derived step counts to the fit call; the force_train
and evaluate flags select the branch, here instantiated to the training
branch where every operation runs. -/
theorem C5_flag_consumption (f : Flags) (env : Env) (r : TrainResult) (te ve : Nat)
    (hd : env.datasetInfo = Except.ok (te, ve))
    (he : f.evaluate = false) (hskip : (env.ckptExists && !f.force_train) = false)
    (hbs : f.batch_size ≠ 0) (hr : train f env = Except.ok r) :
    Event.setJit f.use_xla ∈ r.trace ∧
    Event.setAmp f.use_amp ∈ r.trace ∧
    Event.getNumLabels f.task ∈ r.trace ∧
    Event.loadDataset ("glue/" ++ get_tfds_task f.task) ∈ r.trace ∧
    Event.convertExamples "train" f.max_length f.task ∈ r.trace ∧
    Event.convertExamples "validation" f.max_length f.task ∈ r.trace ∧
    Event.shuffle f.buffer_size ∈ r.trace ∧
    Event.batch f.batch_size ∈ r.trace ∧
    Event.batch (f.batch_size * 2) ∈ r.trace ∧
    Event.makeOptim (makeOptimizer f) ∈ r.trace ∧
    adamBase (makeOptimizer f) = Optimizer.adam f.learning_rate f.epsilon ∧
    isLossScale (makeOptimizer f) = f.use_amp ∧
    Event.fit f.epochs (te / f.batch_size) (ve / (f.batch_size * 2)) ∈ r.trace := by
  obtain ⟨n, te2, ve2, ws, hA, hB, hC, htail⟩ := train_ok_elim f env r hr
  rw [hd] at hB
  injection hB with hB
  injection hB with hB1 hB2
  subst hB1
  subst hB2
  unfold trainTail at htail
  rw [if_neg (by simp [he])] at htail
  rw [if_neg (by simp [hskip])] at htail
  rw [if_neg hbs] at htail
  cases hfit : env.fitOk with
  | error e => rw [hfit] at htail; exact absurd htail (by simp)
  | ok u =>
    rw [hfit] at htail
    dsimp only at htail
    injection htail with htail
    subst htail
    refine ⟨List.mem_append_left _ (by simp [preEvents]),
      List.mem_append_left _ (by simp [preEvents]),
      List.mem_append_left _ (by simp [preEvents]),
      List.mem_append_left _ (by simp [preEvents]),
      List.mem_append_left _ (by simp [preEvents]),
      List.mem_append_left _ (by simp [preEvents]),
      List.mem_append_left _ (by simp [preEvents]),
      List.mem_append_left _ (by simp [preEvents]),
      List.mem_append_left _ (by simp [preEvents]),
      List.mem_append_left _ (by simp [preEvents]), ?_, ?_,
      List.mem_append_right _ (by simp)⟩
    · cases hb : f.use_amp <;> simp [makeOptimizer, adamBase, hb]
    · cases hb : f.use_amp <;> simp [makeOptimizer, isLossScale, hb]

/-- C5 witness: the flag consumption theorem at the default flags over the
all-succeeding environment without a checkpoint. -/
theorem C5_flag_consumption_witness :
    Event.setJit flags0.use_xla ∈ (resultOf (train flags0 env0)).trace ∧
    Event.setAmp flags0.use_amp ∈ (resultOf (train flags0 env0)).trace ∧
    Event.getNumLabels flags0.task ∈ (resultOf (train flags0 env0)).trace ∧
    Event.loadDataset ("glue/" ++ get_tfds_task flags0.task)
      ∈ (resultOf (train flags0 env0)).trace ∧
    Event.convertExamples "train" flags0.max_length flags0.task
      ∈ (resultOf (train flags0 env0)).trace ∧
    Event.convertExamples "validation" flags0.max_length flags0.task
      ∈ (resultOf (train flags0 env0)).trace ∧
    Event.shuffle flags0.buffer_size ∈ (resultOf (train flags0 env0)).trace ∧
    Event.batch flags0.batch_size ∈ (resultOf (train flags0 env0)).trace ∧
    Event.batch (flags0.batch_size * 2) ∈ (resultOf (train flags0 env0)).trace ∧
    Event.makeOptim (makeOptimizer flags0) ∈ (resultOf (train flags0 env0)).trace ∧
    adamBase (makeOptimizer flags0)
      = Optimizer.adam flags0.learning_rate flags0.epsilon ∧
    isLossScale (makeOptimizer flags0) = flags0.use_amp ∧
    Event.fit flags0.epochs (67349 / flags0.batch_size)
      (872 / (flags0.batch_size * 2)) ∈ (resultOf (train flags0 env0)).trace :=
  C5_flag_consumption flags0 env0 (resultOf (train flags0 env0)) 67349 872
    rfl rfl rfl (by decide) rfl

/-- C6 counterexample: at the concrete training run over the default flags
the script completes issuing exactly one fit call and zero evaluate calls,
so it is false that every single run issues exactly one call to fit and
exactly one call to evaluate. -/
theorem C6_counterexample :
    traceOf (train flags0 env0) ≠ [] ∧
    (traceOf (train flags0 env0)).countP isFitEvent = 1 ∧
    (traceOf (train flags0 env0)).countP isEvalEvent = 0 ∧
    (traceOf (train flags0 env0)).countP isEvalEvent ≠ 1 := by
  decide

/-- C6 amended: the number of blocking fit and evaluate calls a completed
run issues is decided by the branch taken: zero fit and two evaluate calls
in evaluate mode, none at all on a checkpoint skip, and exactly one fit
and zero evaluate calls on a training run. -/
theorem C6_amended_call_counts (f : Flags) (env : Env) (r : TrainResult)
    (hr : train f env = Except.ok r) :
    (r.trace.countP isFitEvent, r.trace.countP isEvalEvent)
      = (if f.evaluate then (0, 2)
         else if env.ckptExists && !f.force_train then (0, 0)
         else (1, 0)) := by
  obtain ⟨n, te, ve, ws, hA, hB, hC, htail⟩ := train_ok_elim f env r hr
  unfold trainTail at htail
  obtain ⟨c1, c2, c3, c4⟩ := preEvents_counts f n ws
  by_cases hev : f.evaluate = true
  · rw [if_pos hev] at htail
    rw [if_pos hev]
    cases hg : get_train_length f.task with
    | none => rw [hg] at htail; exact absurd htail (by simp)
    | some len =>
      rw [hg] at htail
      dsimp only at htail
      by_cases hb : f.batch_size = 0
      · rw [if_pos hb] at htail; exact absurd htail (by simp)
      · rw [if_neg hb] at htail
        injection htail with htail
        subst htail
        simp [List.countP_append, List.countP_cons, c1, c2, isFitEvent, isEvalEvent]
  · rw [if_neg hev] at htail
    rw [if_neg hev]
    by_cases hskip : (env.ckptExists && !f.force_train) = true
    · rw [if_pos hskip] at htail
      rw [if_pos hskip]
      injection htail with htail
      subst htail
      simp [List.countP_append, List.countP_cons, c1, c2, isFitEvent, isEvalEvent]
    · rw [if_neg hskip] at htail
      rw [if_neg hskip]
      by_cases hb : f.batch_size = 0
      · rw [if_pos hb] at htail; exact absurd htail (by simp)
      · rw [if_neg hb] at htail
        cases hfit : env.fitOk with
        | error e => rw [hfit] at htail; exact absurd htail (by simp)
        | ok u =>
          rw [hfit] at htail
          dsimp only at htail
          injection htail with htail
          subst htail
          simp [List.countP_append, List.countP_cons, c1, c2, isFitEvent, isEvalEvent]

/-- C6 witness: the amended call-count theorem at the default flags over
the all-succeeding environment without a checkpoint. -/
theorem C6_amended_call_counts_witness :
    ((resultOf (train flags0 env0)).trace.countP isFitEvent,
     (resultOf (train flags0 env0)).trace.countP isEvalEvent)
      = (if flags0.evaluate then (0, 2)
         else if env0.ckptExists && !flags0.force_train then (0, 0)
         else (1, 0)) :=
  C6_amended_call_counts flags0 env0 (resultOf (train flags0 env0)) rfl
